import Mathlib

set_option maxRecDepth 100000

/-!
Verification development for the `diario-utils` storage layer
(`diario_utils/storage/{parquet,paths,base,local}.py`).

The Python code is shallowly embedded: pure helpers become Lean functions,
the pluggable `StorageBackend` becomes an explicit state record threaded
through the operations, byte strings become `List Nat` (each entry one
byte), and fallible paths return `Except`.  The process clock
(`datetime.now()`) is modelled as a `DateTime` value passed in explicitly;
one `save_editions` call is modelled as observing a single instant.
-/

namespace DiarioUtils

/-! ## Small string/number utilities shared by the embedding -/

/-- Lower-case hexadecimal digit, as produced by Python `hexdigest`. -/
def hexDigit (n : Nat) : Char :=
  if n < 10 then Char.ofNat (48 + n) else Char.ofNat (87 + n)

/-- Two hex digits for one byte. -/
def byteToHex (b : Nat) : String :=
  String.mk [hexDigit (b / 16 % 16), hexDigit (b % 16)]

/-- Python `f"{n:02d}"` for naturals: zero-pad to (at least) two digits. -/
def pad2 (n : Nat) : String :=
  if n < 10 then "0" ++ toString n else toString n

/-- The first `n` characters of a string (Python `s[:n]`; every string
sliced here is ASCII). -/
def strTake (s : String) (n : Nat) : String := String.mk (s.data.take n)

/-- Drop the first `n` characters (Python `s[n:]`). -/
def strDrop (s : String) (n : Nat) : String := String.mk (s.data.drop n)

/-- Lexicographic code-point order on character lists (Python `str` order). -/
def lexLe : List Char → List Char → Bool
  | [], _ => true
  | _ :: _, [] => false
  | x :: xs, y :: ys =>
    if x.toNat < y.toNat then true
    else if x.toNat = y.toNat then lexLe xs ys
    else false

/-- Python string `<=`. -/
def strLe (a b : String) : Bool := lexLe a.data b.data

/-- Python `sep.join(parts)`. -/
def strJoinSep (sep : String) : List String → String
  | [] => ""
  | [x] => x
  | x :: y :: rest => x ++ sep ++ strJoinSep sep (y :: rest)

/-- Prefix test on strings (`str.startswith`). -/
def strStartsWith (s pre : String) : Bool := pre.data.isPrefixOf s.data

/-- Suffix test on strings (pathlib extension match in `list_files`). -/
def strEndsWith (s suf : String) : Bool := suf.data.isSuffixOf s.data

/-- Split a character list at every occurrence of `c` (Python
`str.split(c)` for a one-character separator; never returns `[]`). -/
def splitOnChar (c : Char) : List Char → List (List Char)
  | [] => [[]]
  | x :: xs =>
    let r := splitOnChar c xs
    if x = c then [] :: r
    else
      match r with
      | h :: t => (x :: h) :: t
      | [] => [[x]]

/-- `s.split("-")`. -/
def splitOnDash (s : String) : List String :=
  (splitOnChar (Char.ofNat 45) s.data).map String.mk

/-! ## UTF-8 codec

`save_editions` calls `bytes.decode("utf-8")` (strict) and
`str.encode("utf-8")`.  Both are embedded faithfully: the decoder rejects
overlong forms, surrogates and code points above `0x10FFFF`, exactly as
CPython's strict UTF-8 codec does. -/

/-- UTF-8 encoding of one code point (code points come from `Char`, so they
are already scalar values). -/
def utf8EncodeChar (c : Char) : List Nat :=
  let n := c.toNat
  if n ≤ 0x7F then [n]
  else if n ≤ 0x7FF then [0xC0 + (n >>> 6), 0x80 + (n % 64)]
  else if n ≤ 0xFFFF then
    [0xE0 + (n >>> 12), 0x80 + ((n >>> 6) % 64), 0x80 + (n % 64)]
  else
    [0xF0 + (n >>> 18), 0x80 + ((n >>> 12) % 64), 0x80 + ((n >>> 6) % 64),
     0x80 + (n % 64)]

/-- Python `str.encode("utf-8")`. -/
def utf8Encode (s : String) : List Nat :=
  (s.data.map utf8EncodeChar).flatten

/-- A UTF-8 continuation byte. -/
def isCont (b : Nat) : Bool := 0x80 ≤ b && b ≤ 0xBF

/-- Admissible second byte of a three-byte sequence (excludes overlong
forms for `0xE0` and surrogates for `0xED`). -/
def cont3ok (b b1 : Nat) : Bool :=
  if b == 0xE0 then 0xA0 ≤ b1 && b1 ≤ 0xBF
  else if b == 0xED then 0x80 ≤ b1 && b1 ≤ 0x9F
  else isCont b1

/-- Admissible second byte of a four-byte sequence (excludes overlong forms
for `0xF0` and code points above `0x10FFFF` for `0xF4`). -/
def cont4ok (b b1 : Nat) : Bool :=
  if b == 0xF0 then 0x90 ≤ b1 && b1 ≤ 0xBF
  else if b == 0xF4 then 0x80 ≤ b1 && b1 ≤ 0x8F
  else isCont b1

/-- Python `bytes.decode("utf-8")` with strict error handling: `some` of the
decoded code points, or `none` on any malformed input. -/
def utf8Decode : List Nat → Option (List Char)
  | [] => some []
  | b :: rest =>
    if b ≤ 0x7F then
      match utf8Decode rest with
      | some cs => some (Char.ofNat b :: cs)
      | none => none
    else if 0xC2 ≤ b && b ≤ 0xDF then
      match rest with
      | b1 :: rest1 =>
        if isCont b1 then
          match utf8Decode rest1 with
          | some cs => some (Char.ofNat (((b - 0xC0) <<< 6) + (b1 - 0x80)) :: cs)
          | none => none
        else none
      | [] => none
    else if 0xE0 ≤ b && b ≤ 0xEF then
      match rest with
      | b1 :: b2 :: rest2 =>
        if cont3ok b b1 && isCont b2 then
          match utf8Decode rest2 with
          | some cs =>
            some (Char.ofNat (((b - 0xE0) <<< 12) + ((b1 - 0x80) <<< 6) +
              (b2 - 0x80)) :: cs)
          | none => none
        else none
      | _ => none
    else if 0xF0 ≤ b && b ≤ 0xF4 then
      match rest with
      | b1 :: b2 :: b3 :: rest3 =>
        if cont4ok b b1 && isCont b2 && isCont b3 then
          match utf8Decode rest3 with
          | some cs =>
            some (Char.ofNat (((b - 0xF0) <<< 18) + ((b1 - 0x80) <<< 12) +
              ((b2 - 0x80) <<< 6) + (b3 - 0x80)) :: cs)
          | none => none
        else none
      | _ => none
    else none

/-! ## Calendar dates and the strict `%Y-%m-%d` parse -/

/-- A calendar date (`datetime.date`). -/
structure Date where
  year : Nat
  month : Nat
  day : Nat
deriving DecidableEq, Repr

/-- An instant (`datetime.datetime`, seconds resolution). -/
structure DateTime where
  year : Nat
  month : Nat
  day : Nat
  hour : Nat
  minute : Nat
  second : Nat
deriving DecidableEq, Repr

/-- `datetime.now().date()`. -/
def DateTime.date (t : DateTime) : Date :=
  { year := t.year, month := t.month, day := t.day }

/-- `strftime("%Y%m%d_%H%M%S")`. -/
def fmtTimestamp (t : DateTime) : String :=
  toString t.year ++ pad2 t.month ++ pad2 t.day ++ "_" ++
    pad2 t.hour ++ pad2 t.minute ++ pad2 t.second

/-- `datetime.isoformat()` (no sub-second component in the model). -/
def isoformat (t : DateTime) : String :=
  toString t.year ++ "-" ++ pad2 t.month ++ "-" ++ pad2 t.day ++ "T" ++
    pad2 t.hour ++ ":" ++ pad2 t.minute ++ ":" ++ pad2 t.second

/-- Non-empty and all decimal digits. -/
def isDigitStr (s : String) : Bool :=
  s.length > 0 && s.data.all (fun c => c.isDigit)

/-- Numeric value of a decimal digit string. -/
def natOfDigits (s : String) : Nat :=
  s.data.foldl (fun a c => a * 10 + (c.toNat - 48)) 0

/-- Gregorian leap-year rule used by `datetime.date`. -/
def isLeap (y : Nat) : Bool :=
  (y % 4 == 0 && y % 100 != 0) || y % 400 == 0

/-- Days in a month, as validated by the `datetime.date` constructor. -/
def daysInMonth (y m : Nat) : Nat :=
  if m == 2 then (if isLeap y then 29 else 28)
  else if m == 4 || m == 6 || m == 9 || m == 11 then 30
  else 31

/-- `datetime.strptime(s, "%Y-%m-%d").date()`: `%Y` is exactly four digits,
`%m`/`%d` one or two digits, nothing may precede or follow, and the
resulting triple must be a real calendar date (year at least 1). -/
def parseDateStrict (s : String) : Option Date :=
  match splitOnDash s with
  | [ys, ms, ds] =>
    if ys.length == 4 && isDigitStr ys &&
        (ms.length == 1 || ms.length == 2) && isDigitStr ms &&
        (ds.length == 1 || ds.length == 2) && isDigitStr ds then
      let y := natOfDigits ys
      let m := natOfDigits ms
      let d := natOfDigits ds
      if 1 ≤ y && 1 ≤ m && m ≤ 12 && 1 ≤ d && d ≤ daysInMonth y m then
        some { year := y, month := m, day := d }
      else none
    else none
  | _ => none

/-! ## `paths.py`: `date_partition` -/

/-- `date_partition` from `diario_utils/storage/paths.py`: hive-style
partition path segment for a date, at `"year"`, `"month"` or `"day"`
(default) granularity; any other level string falls through to the
day format, as in the source. -/
def date_partition (d : Date) (level : String := "day") : String :=
  if level == "year" then "year=" ++ toString d.year
  else if level == "month" then
    "year=" ++ toString d.year ++ "/month=" ++ pad2 d.month
  else
    "year=" ++ toString d.year ++ "/month=" ++ pad2 d.month ++
      "/day=" ++ pad2 d.day

/-! ## Hash functions

`parquet.py` uses `hashlib.sha256` for content addressing and
`hashlib.md5` for the edition identity hash.  Both are embedded as real
byte-level implementations over `List Nat`, with 32-bit words as `Nat`
reduced mod `2^32`. -/

/-- Truncation to a 32-bit word. -/
def w32 (n : Nat) : Nat := n % 4294967296

/-- 32-bit right rotation. -/
def rotr32 (k n : Nat) : Nat := w32 ((n >>> k) ||| (n <<< (32 - k)))

/-- 32-bit left rotation. -/
def rotl32 (k n : Nat) : Nat := w32 ((n <<< k) ||| (n >>> (32 - k)))

/-- Big-endian bytes (most significant first) of `n`, `k` bytes wide. -/
def toBytesBE (k n : Nat) : List Nat :=
  (List.range k).map (fun i => (n >>> (8 * (k - 1 - i))) % 256)

/-- Little-endian bytes of `n`, `k` bytes wide. -/
def toBytesLE (k n : Nat) : List Nat :=
  (List.range k).map (fun i => (n >>> (8 * i)) % 256)

/-- Word from big-endian bytes. -/
def bytesToWordBE (bs : List Nat) : Nat :=
  bs.foldl (fun acc b => acc * 256 + b) 0

/-- Word from little-endian bytes. -/
def bytesToWordLE (bs : List Nat) : Nat :=
  bs.foldr (fun b acc => acc * 256 + b) 0

/-- Take `n` successive 64-byte blocks (structural recursion on the block
count so that the kernel can evaluate it). -/
def splitBlocks : Nat → List Nat → List (List Nat)
  | 0, _ => []
  | n + 1, l => l.take 64 :: splitBlocks n (l.drop 64)

/-- Split a byte string whose length is a multiple of 64 (as every padded
message is) into its 64-byte blocks. -/
def chunks64 (l : List Nat) : List (List Nat) :=
  splitBlocks (l.length / 64) l

/-- Merkle–Damgård padding: `0x80`, zeros to 56 mod 64, then the bit length
in 8 bytes (`be = true` for SHA-256, `false` for MD5). -/
def mdPad (be : Bool) (msg : List Nat) : List Nat :=
  let padZeros := (55 + 64 - msg.length % 64) % 64
  msg ++ [0x80] ++ List.replicate padZeros 0 ++
    (if be then toBytesBE 8 (msg.length * 8) else toBytesLE 8 (msg.length * 8))

/-- SHA-256 round constants. -/
def sha256K : List Nat :=
  [1116352408, 1899447441, 3049323471, 3921009573, 961987163, 1508970993, 2453635748, 2870763221,
   3624381080, 310598401, 607225278, 1426881987, 1925078388, 2162078206, 2614888103, 3248222580,
   3835390401, 4022224774, 264347078, 604807628, 770255983, 1249150122, 1555081692, 1996064986,
   2554220882, 2821834349, 2952996808, 3210313671, 3336571891, 3584528711, 113926993, 338241895,
   666307205, 773529912, 1294757372, 1396182291, 1695183700, 1986661051, 2177026350, 2456956037,
   2730485921, 2820302411, 3259730800, 3345764771, 3516065817, 3600352804, 4094571909, 275423344,
   430227734, 506948616, 659060556, 883997877, 958139571, 1322822218, 1537002063, 1747873779,
   1955562222, 2024104815, 2227730452, 2361852424, 2428436474, 2756734187, 3204031479, 3329325298]

/-- SHA-256 initial state. -/
def sha256H0 : List Nat :=
  [1779033703, 3144134277, 1013904242, 2773480762,
   1359893119, 2600822924, 528734635, 1541459225]

/-- SHA-256 message-schedule sigma functions. -/
def smallSigma0 (x : Nat) : Nat := (rotr32 7 x) ^^^ (rotr32 18 x) ^^^ (x >>> 3)

/-- Second schedule sigma. -/
def smallSigma1 (x : Nat) : Nat := (rotr32 17 x) ^^^ (rotr32 19 x) ^^^ (x >>> 10)

/-- SHA-256 round Sigma functions. -/
def bigSigma0 (x : Nat) : Nat := (rotr32 2 x) ^^^ (rotr32 13 x) ^^^ (rotr32 22 x)

/-- Second round Sigma. -/
def bigSigma1 (x : Nat) : Nat := (rotr32 6 x) ^^^ (rotr32 11 x) ^^^ (rotr32 25 x)

/-- Extend a 64-byte block to the 64-word message schedule. -/
def sha256Schedule (block : List Nat) : List Nat :=
  let w16 := (List.range 16).map (fun i => bytesToWordBE ((block.drop (4 * i)).take 4))
  (List.range 48).foldl
    (fun w _ =>
      w ++ [w32 (smallSigma1 (w.getD (w.length - 2) 0) + w.getD (w.length - 7) 0 +
        smallSigma0 (w.getD (w.length - 15) 0) + w.getD (w.length - 16) 0)])
    w16

/-- One SHA-256 compression step over a 64-byte block. -/
def sha256Compress (h : List Nat) (block : List Nat) : List Nat :=
  let w := sha256Schedule block
  let final := (List.range 64).foldl
    (fun st t =>
      match st with
      | [a, b, c, d, e, f, g, hh] =>
        let ch := (e &&& f) ^^^ ((0xFFFFFFFF ^^^ e) &&& g)
        let maj := (a &&& b) ^^^ (a &&& c) ^^^ (b &&& c)
        let t1 := w32 (hh + bigSigma1 e + ch + sha256K.getD t 0 + w.getD t 0)
        let t2 := w32 (bigSigma0 a + maj)
        [w32 (t1 + t2), a, b, c, w32 (d + t1), e, f, g]
      | other => other)
    h
  List.zipWith (fun x y => w32 (x + y)) h final

/-- The eight 32-bit state words of SHA-256 over a byte string. -/
def sha256Words (msg : List Nat) : List Nat :=
  (chunks64 (mdPad true msg)).foldl sha256Compress sha256H0

/-- Eight fixed-width hex digits of a 32-bit word. -/
def toHex8 (n : Nat) : String :=
  String.mk ((List.range 8).map (fun i => hexDigit ((n >>> (4 * (7 - i))) % 16)))

/-- `hashlib.sha256(msg).hexdigest()`. -/
def sha256hex (msg : List Nat) : String :=
  String.join ((sha256Words msg).map toHex8)

/-- MD5 per-round left-rotation amounts. -/
def md5S : List Nat :=
  [7, 12, 17, 22, 7, 12, 17, 22, 7, 12, 17, 22, 7, 12, 17, 22,
   5, 9, 14, 20, 5, 9, 14, 20, 5, 9, 14, 20, 5, 9, 14, 20,
   4, 11, 16, 23, 4, 11, 16, 23, 4, 11, 16, 23, 4, 11, 16, 23,
   6, 10, 15, 21, 6, 10, 15, 21, 6, 10, 15, 21, 6, 10, 15, 21]

/-- MD5 round constants (`floor(abs(sin(i+1)) * 2^32)`). -/
def md5K : List Nat :=
  [3614090360, 3905402710, 606105819, 3250441966, 4118548399, 1200080426, 2821735955, 4249261313,
   1770035416, 2336552879, 4294925233, 2304563134, 1804603682, 4254626195, 2792965006, 1236535329,
   4129170786, 3225465664, 643717713, 3921069994, 3593408605, 38016083, 3634488961, 3889429448,
   568446438, 3275163606, 4107603335, 1163531501, 2850285829, 4243563512, 1735328473, 2368359562,
   4294588738, 2272392833, 1839030562, 4259657740, 2763975236, 1272893353, 4139469664, 3200236656,
   681279174, 3936430074, 3572445317, 76029189, 3654602809, 3873151461, 530742520, 3299628645,
   4096336452, 1126891415, 2878612391, 4237533241, 1700485571, 2399980690, 4293915773, 2240044497,
   1873313359, 4264355552, 2734768916, 1309151649, 4149444226, 3174756917, 718787259, 3951481745]

/-- Bitwise complement within 32 bits. -/
def not32 (n : Nat) : Nat := 0xFFFFFFFF ^^^ n

/-- One MD5 compression step over a 64-byte block. -/
def md5Compress (h : List Nat) (block : List Nat) : List Nat :=
  let m := fun (j : Nat) => bytesToWordLE ((block.drop (4 * j)).take 4)
  let final := (List.range 64).foldl
    (fun st i =>
      match st with
      | [a, b, c, d] =>
        let fg : Nat × Nat :=
          if i < 16 then ((b &&& c) ||| (not32 b &&& d), i)
          else if i < 32 then ((d &&& b) ||| (not32 d &&& c), (5 * i + 1) % 16)
          else if i < 48 then (b ^^^ c ^^^ d, (3 * i + 5) % 16)
          else (c ^^^ (b ||| not32 d), (7 * i) % 16)
        let sum := w32 (fg.1 + a + md5K.getD i 0 + m fg.2)
        [d, w32 (b + rotl32 (md5S.getD i 0) sum), b, c]
      | other => other)
    h
  List.zipWith (fun x y => w32 (x + y)) h final

/-- `hashlib.md5(msg).hexdigest()`: four state words, little-endian bytes,
lower-case hex. -/
def md5hex (msg : List Nat) : String :=
  let ws := (chunks64 (mdPad false msg)).foldl md5Compress
    [1732584193, 4023233417, 2562383102, 271733878]
  String.join (((ws.map (toBytesLE 4)).flatten).map byteToHex)

/-! ## JSON serialization of a string list (`json.dumps(hierarchy)`) -/

/-- Four fixed-width hex digits (for `\uXXXX` escapes). -/
def u4hex (n : Nat) : String :=
  String.mk [hexDigit (n / 4096 % 16), hexDigit (n / 256 % 16),
    hexDigit (n / 16 % 16), hexDigit (n % 16)]

/-- One character under Python `json.dumps` defaults (`ensure_ascii=True`):
short escapes, `\uXXXX` for other control and non-ASCII characters,
surrogate pairs for astral code points. -/
def jsonEscapeChar (c : Char) : String :=
  let n := c.toNat
  if c = Char.ofNat 34 then "\\\""
  else if c = Char.ofNat 92 then "\\\\"
  else if c = Char.ofNat 10 then "\\n"
  else if c = Char.ofNat 9 then "\\t"
  else if c = Char.ofNat 13 then "\\r"
  else if c = Char.ofNat 8 then "\\b"
  else if c = Char.ofNat 12 then "\\f"
  else if n < 0x20 then "\\u" ++ u4hex n
  else if n < 0x7F then String.singleton c
  else if n < 0x10000 then "\\u" ++ u4hex n
  else
    "\\u" ++ u4hex (0xD800 + (n - 0x10000) / 1024) ++
      "\\u" ++ u4hex (0xDC00 + (n - 0x10000) % 1024)

/-- `json.dumps(list_of_strings)` with default separators. -/
def jsonDumpsStrList (l : List String) : String :=
  "[" ++ strJoinSep ", "
    (l.map (fun s => "\"" ++ String.join (s.data.map jsonEscapeChar) ++ "\"")) ++ "]"

/-! ## Domain objects (`diario_contract`)

`GazetteEdition` and its articles are supplied by an external contract
package; `save_editions` only reads the fields below.  An article body
(`article.content.raw_content`) is `str`, `bytes`, or `None`. -/

/-- `article.content.raw_content`. -/
inductive RawContent
  | text (s : String)
  | bytes (b : List Nat)
  | is_null
deriving DecidableEq, Repr

/-- The edition metadata fields read by `save_editions`. -/
structure EditionMetadata where
  edition_id : String
  publication_date : String
  edition_number : Int
  supplement : Bool
  edition_type_id : Int
  edition_type_name : String
  pdf_url : String
deriving DecidableEq, Repr

/-- The article metadata fields read by `save_editions`; `title`,
`hierarchy_path`, `identifier` and `protocol` may be absent or `None`
(the code reads them through `getattr(..., default) or default`). -/
structure ArticleMetadata where
  article_id : String
  edition_id : String
  title : Option String
  hierarchy_path : Option (List String)
  identifier : Option String
  protocol : Option String
deriving DecidableEq, Repr

/-- `article.content`: the raw body plus a content-type tag (the code
reduces the tag to a string via `.value` or `str(...)`). -/
structure ArticleContent where
  raw_content : RawContent
  content_type : String
deriving DecidableEq, Repr

/-- One article. -/
structure Article where
  metadata : ArticleMetadata
  content : ArticleContent
deriving DecidableEq, Repr

/-- One gazette edition. -/
structure GazetteEdition where
  metadata : EditionMetadata
  articles : List Article
deriving DecidableEq, Repr

/-! ## Storage backend model

`StorageBackend` (`base.py`) is a capability interface; `LocalBackend`
maps logical paths onto a base directory.  The model keeps the set of
existing paths, a log of the operations performed, and a fault-injection
set of paths whose `write_parquet` fails (modelling a backend I/O error).
File contents are not tracked: no operation embedded here reads them
back. -/

/-- One observable backend operation. -/
inductive BackendOp
  | writeBytes (path : String)
  | existsCheck (path : String)
  | writeParquet (path : String)
  | listFilesOp (pre : String) (suffix : Option String)
deriving DecidableEq, Repr

/-- Backend state: existing paths, operation log, and the injected set of
parquet writes that fail. -/
structure BackendState where
  files : List String
  ops : List BackendOp
  failParquet : List String
deriving DecidableEq, Repr

/-- The sidecar metadata record written next to a blob. -/
structure BlobMeta where
  content_hash : String
  content_size : Nat
  created_at : String
deriving DecidableEq, Repr

/-- Errors that `save_editions` can raise: the uncaught `ValueError` from
`datetime.strptime`, or a backend failure during a table write. -/
inductive SaveError
  | dateParse (value : String)
  | writeFail (path : String)
deriving DecidableEq, Repr

/-- `backend.exists(path)`. -/
def BackendState.existsOp (s : BackendState) (path : String) :
    BackendState × Bool :=
  ({ s with ops := s.ops ++ [.existsCheck path] }, decide (path ∈ s.files))

/-- `backend.write_bytes(path, data, metadata=...)`: creates the file and,
when metadata is given, the `.meta.json` sidecar (as `LocalBackend` does). -/
def BackendState.writeBytesOp (s : BackendState) (path : String)
    (md : Option BlobMeta) : BackendState :=
  { s with
    files := s.files ++ [path] ++
      (match md with
       | some _ => [path ++ ".meta.json"]
       | none => []),
    ops := s.ops ++ [.writeBytes path] }

/-- `backend.write_parquet(path, table)`: succeeds and creates the file
unless the fault-injection set names the path, in which case the backend
raises and the file is not created. -/
def BackendState.writeParquetOp (s : BackendState) (path : String) :
    BackendState × Except SaveError Unit :=
  if path ∈ s.failParquet then
    ({ s with ops := s.ops ++ [.writeParquet path] }, .error (.writeFail path))
  else
    ({ s with files := s.files ++ [path], ops := s.ops ++ [.writeParquet path] },
      .ok ())

/-- Stable insertion into an ascending list (code-point order, as Python
`sorted` on `str`). -/
def insertSorted (x : String) : List String → List String
  | [] => [x]
  | y :: ys => if strLe x y then x :: y :: ys else y :: insertSorted x ys

/-- Ascending sort of strings (Python `sorted`). -/
def sortStrings (l : List String) : List String :=
  l.foldr insertSorted []

/-- `LocalBackend.list_files(prefix, suffix)`: relative paths under the
prefix directory with the given extension, lexicographically sorted;
empty when the prefix does not exist. -/
def listFilesPure (s : BackendState) (pre : String) (suffix : Option String) :
    List String :=
  sortStrings (s.files.filter (fun p =>
    strStartsWith p (pre ++ "/") &&
      (match suffix with
       | some suf => strEndsWith p suf
       | none => true)))

/-- `backend.list_files` with the operation logged. -/
def BackendState.listFiles (s : BackendState) (pre : String)
    (suffix : Option String) : BackendState × List String :=
  ({ s with ops := s.ops ++ [.listFilesOp pre suffix] }, listFilesPure s pre suffix)

/-- `LocalBackend.get_uri(path)` = `f"file://{base_path / path}"`. -/
def getUri (basePath : String) (path : String) : String :=
  "file://" ++ basePath ++ "/" ++ path

/-- ParquetStorage configuration: backend base path (for URIs), the
partitioning level, and whether the DuckDB query engine is enabled. -/
structure StoreConfig where
  basePath : String
  partitionBy : String
  enableDuckdb : Bool
deriving DecidableEq, Repr

/-! ## Output rows -/

/-- One row of the editions table. -/
structure EditionRow where
  municipality : String
  edition_id : String
  publication_date : Date
  edition_number : Int
  supplement : Bool
  edition_type_id : Int
  edition_type_name : String
  pdf_url : String
  total_articles : Nat
  processed_at : DateTime
  edition_hash : String
  batch_id : String
  year : Nat
  month : Nat
  day : Nat
deriving DecidableEq, Repr

/-- One row of the articles table. -/
structure ArticleRow where
  municipality : String
  article_id : String
  edition_id : String
  edition_hash : String
  publication_date : Date
  title : String
  hierarchy_path : String
  identifier : String
  protocol : String
  depth : Nat
  content_type : String
  content_size : Nat
  content_hash : Option String
  content_path : Option String
  inline_text : Option String
  processed_at : DateTime
  batch_id : String
  year : Nat
  month : Nat
  day : Nat
deriving DecidableEq, Repr

/-- One row of the relationships table (`publication_date` is stored here
as the raw metadata string, `processed_at` as an ISO string). -/
structure RelationshipRow where
  municipality : String
  edition_id : String
  article_id : String
  edition_hash : String
  publication_date : String
  batch_id : String
  processed_at : String
deriving DecidableEq, Repr

/-- The dict returned by `save_editions`: the empty-input early return
carries only the three counts, the full return also carries
municipality, timestamp and batch_id (modelled as `Option`s). -/
structure Stats where
  editions : Nat
  articles : Nat
  relationships : Nat
  municipality : Option String
  timestamp : Option String
  batch_id : Option String
deriving DecidableEq, Repr

/-- The metadata dict returned by `_write_content_blob` (inline rows reuse
the same shape with the two blob fields `None`). -/
structure ContentMeta where
  content_hash : Option String
  content_path : Option String
  content_size : Nat
deriving DecidableEq, Repr

/-! ## ParquetStorage helpers -/

/-- `CONTENT_INLINE_THRESHOLD`. -/
def CONTENT_INLINE_THRESHOLD : Nat := 2000

/-- `CONTENT_DIRNAME`. -/
def CONTENT_DIRNAME : String := "content"

/-- `_generate_edition_hash`: MD5 of
`f"{edition_id}_{publication_date}_{len(articles)}"`. -/
def generate_edition_hash (edition : GazetteEdition) : String :=
  md5hex (utf8Encode (edition.metadata.edition_id ++ "_" ++
    edition.metadata.publication_date ++ "_" ++ toString edition.articles.length))

/-- The argument type of `_write_content_blob` (`raw: str | bytes`). -/
inductive StrOrBytes
  | str (s : String)
  | bytes (b : List Nat)
deriving DecidableEq, Repr

/-- The sharded blob path derived from a byte payload:
`content/<hash[0:2]>/<hash[2:4]>/<hash>.bin`. -/
def blobPathOf (rawBytes : List Nat) : String :=
  let h := sha256hex rawBytes
  CONTENT_DIRNAME ++ "/" ++ strTake h 2 ++ "/" ++ strTake (strDrop h 2) 2 ++
    "/" ++ (h ++ ".bin")

/-- `_write_content_blob`: encode a str input to UTF-8 bytes, hash, derive
the sharded path, write through the backend only if the path does not
exist (with the `{content_hash, content_size, created_at}` sidecar), and
return the descriptor either way. -/
def write_content_blob (s : BackendState) (raw : StrOrBytes) (now : DateTime) :
    BackendState × ContentMeta :=
  let rawBytes :=
    match raw with
    | .str t => utf8Encode t
    | .bytes b => b
  let size := rawBytes.length
  let content_hash := sha256hex rawBytes
  let path := blobPathOf rawBytes
  let e := s.existsOp path
  let s2 :=
    if e.2 then e.1
    else e.1.writeBytesOp path (some
      { content_hash := content_hash, content_size := size,
        created_at := isoformat now })
  (s2, { content_hash := some content_hash, content_path := some path,
         content_size := size })

/-- `_publication_date_parts`: year/month/day of the strict parse, or of
the current date when the parse fails (the logged fallback). -/
def publication_date_parts (publication_date : String) (today : Date) : Date :=
  match parseDateStrict publication_date with
  | some d => d
  | none => today

/-! ## `save_editions` -/

/-- Per-edition context shared by every article of one edition. -/
structure EditionCtx where
  municipality : String
  batch_id : String
  edition_id : String
  edition_hash : String
  publication_date_raw : String
  pub_date_obj : Date
  pub_parts : Date
  now : DateTime
deriving DecidableEq, Repr

/-- The body of the per-article loop of `save_editions`: normalize the raw
body, apply the inline-vs-blob policy, and build the article row. -/
def processArticle (s : BackendState) (article : Article) (ctx : EditionCtx) :
    BackendState × ArticleRow :=
  let rtb : Option String × List Nat :=
    match article.content.raw_content with
    | .bytes b =>
      (match utf8Decode b with
       | some cs => (some (String.mk cs), b)
       | none => (none, b))
    | .text t => (some t, utf8Encode t)
    | .is_null => (some "", utf8Encode "")
  let raw_text := rtb.1
  let raw_bytes := rtb.2
  let blobBranch := raw_text.isNone ||
    decide (CONTENT_INLINE_THRESHOLD < (raw_text.getD "").length)
  let smi : BackendState × ContentMeta × Option String :=
    if blobBranch then
      let w := write_content_blob s (.bytes raw_bytes) ctx.now
      (w.1, w.2, none)
    else
      (s, { content_hash := none, content_path := none,
            content_size := raw_bytes.length }, raw_text)
  let hierarchy := article.metadata.hierarchy_path.getD []
  (smi.1,
   { municipality := ctx.municipality
     article_id := article.metadata.article_id
     edition_id := article.metadata.edition_id
     edition_hash := ctx.edition_hash
     publication_date := ctx.pub_date_obj
     title := article.metadata.title.getD ""
     hierarchy_path := jsonDumpsStrList hierarchy
     identifier := article.metadata.identifier.getD ""
     protocol := article.metadata.protocol.getD ""
     depth := hierarchy.length
     content_type := article.content.content_type
     content_size := smi.2.1.content_size
     content_hash := smi.2.1.content_hash
     content_path := smi.2.1.content_path
     inline_text := smi.2.2
     processed_at := ctx.now
     batch_id := ctx.batch_id
     year := ctx.pub_parts.year
     month := ctx.pub_parts.month
     day := ctx.pub_parts.day })

/-- The relationships row appended for one article. -/
def mkRelationshipRow (article : Article) (ctx : EditionCtx) : RelationshipRow :=
  { municipality := ctx.municipality
    edition_id := ctx.edition_id
    article_id := article.metadata.article_id
    edition_hash := ctx.edition_hash
    publication_date := ctx.publication_date_raw
    batch_id := ctx.batch_id
    processed_at := isoformat ctx.now }

/-- The inner article loop over one edition's articles. -/
def processArticles (s : BackendState) (articles : List Article)
    (ctx : EditionCtx) : BackendState × List ArticleRow × List RelationshipRow :=
  match articles with
  | [] => (s, [], [])
  | a :: rest =>
    let pr := processArticle s a ctx
    let rest' := processArticles pr.1 rest ctx
    (rest'.1, pr.2 :: rest'.2.1, mkRelationshipRow a ctx :: rest'.2.2)

/-- Call-level context: the single observed instant, the resolved batch id
and municipality. -/
structure GlobalCtx where
  now : DateTime
  batch_id : String
  municipality : String
deriving DecidableEq, Repr

/-- One iteration of the edition loop: edition hash, partition parts with
fallback, then the strict re-parse of `publication_date` — the source
parses again *outside* any try/except, so a malformed date raises here. -/
def processEdition (s : BackendState) (edition : GazetteEdition) (g : GlobalCtx) :
    BackendState ×
      Except SaveError (EditionRow × List ArticleRow × List RelationshipRow) :=
  let meta := edition.metadata
  let edition_hash := generate_edition_hash edition
  let pub_parts := publication_date_parts meta.publication_date g.now.date
  match parseDateStrict meta.publication_date with
  | none => (s, .error (.dateParse meta.publication_date))
  | some pub_date_obj =>
    let edRow : EditionRow :=
      { municipality := g.municipality
        edition_id := meta.edition_id
        publication_date := pub_date_obj
        edition_number := meta.edition_number
        supplement := meta.supplement
        edition_type_id := meta.edition_type_id
        edition_type_name := meta.edition_type_name
        pdf_url := meta.pdf_url
        total_articles := edition.articles.length
        processed_at := g.now
        edition_hash := edition_hash
        batch_id := g.batch_id
        year := pub_parts.year
        month := pub_parts.month
        day := pub_parts.day }
    let ctx : EditionCtx :=
      { municipality := g.municipality
        batch_id := g.batch_id
        edition_id := meta.edition_id
        edition_hash := edition_hash
        publication_date_raw := meta.publication_date
        pub_date_obj := pub_date_obj
        pub_parts := pub_parts
        now := g.now }
    let pa := processArticles s edition.articles ctx
    (pa.1, .ok (edRow, pa.2.1, pa.2.2))

/-- The full mapping loop over all editions, accumulating the three row
sets; the first malformed `publication_date` aborts the loop with the
backend state reached so far (earlier blob writes included). -/
def processEditions (s : BackendState) (editions : List GazetteEdition)
    (g : GlobalCtx) :
    BackendState ×
      Except SaveError
        (List EditionRow × List ArticleRow × List RelationshipRow) :=
  match editions with
  | [] => (s, .ok ([], [], []))
  | e :: rest =>
    let pe := processEdition s e g
    match pe.2 with
    | .error err => (pe.1, .error err)
    | .ok (er, ar, rr) =>
      let rest' := processEditions pe.1 rest g
      match rest'.2 with
      | .error err => (rest'.1, .error err)
      | .ok (ers, ars, rrs) => (rest'.1, .ok (er :: ers, ar ++ ars, rr ++ rrs))

/-- The editions table path of one batch. -/
def gazettesPath (timestamp : String) : String :=
  "gazettes/batch_" ++ timestamp ++ ".parquet"

/-- The articles table path of one batch. -/
def articlesPath (timestamp : String) : String :=
  "articles/batch_" ++ timestamp ++ ".parquet"

/-- The relationships table path of one batch. -/
def relationshipsPath (timestamp : String) : String :=
  "relationships/batch_" ++ timestamp ++ ".parquet"

/-- One guarded table write of the write phase (`if rows: write_parquet`),
returning the count written on success. -/
def writeStep (st : BackendState) (nonempty : Bool) (path : String)
    (count : Nat) : BackendState × Except SaveError Nat :=
  if nonempty then
    let w := st.writeParquetOp path
    match w.2 with
    | .ok _ => (w.1, .ok count)
    | .error e => (w.1, .error e)
  else (st, .ok 0)

/-- The write phase of `save_editions`: three sequential `write_parquet`
calls guarded by non-emptiness, inside one try/except that logs and
re-raises.  There is no rollback: a failure leaves the earlier tables in
place and propagates. -/
def writeTables (s : BackendState) (timestamp batch_id municipality : String)
    (edRows : List EditionRow) (artRows : List ArticleRow)
    (relRows : List RelationshipRow) : BackendState × Except SaveError Stats :=
  let r1 := writeStep s (!edRows.isEmpty) (gazettesPath timestamp)
    edRows.length
  match r1.2 with
  | .error e => (r1.1, .error e)
  | .ok ec =>
    let r2 := writeStep r1.1 (!artRows.isEmpty) (articlesPath timestamp)
      artRows.length
    match r2.2 with
    | .error e => (r2.1, .error e)
    | .ok ac =>
      let r3 := writeStep r2.1 (!relRows.isEmpty)
        (relationshipsPath timestamp) relRows.length
      match r3.2 with
      | .error e => (r3.1, .error e)
      | .ok rc =>
        (r3.1, .ok { editions := ec, articles := ac, relationships := rc,
                     municipality := some municipality,
                     timestamp := some timestamp, batch_id := some batch_id })

/-- The call-level context `save_editions` builds from the clock and its
kwargs (`batch_id` defaults to `batch_<timestamp>`, `municipality` to
`""`). -/
def saveGlobalCtx (now : DateTime) (batchIdArg municipalityArg : Option String) :
    GlobalCtx :=
  { now := now
    batch_id := batchIdArg.getD ("batch_" ++ fmtTimestamp now)
    municipality := municipalityArg.getD "" }

/-- `ParquetStorage.save_editions`: early return on empty input, then the
mapping loop (which may raise on a malformed `publication_date`), then the
three sequential table writes. -/
def save_editions (s : BackendState) (editions : List GazetteEdition)
    (now : DateTime) (batchIdArg municipalityArg : Option String) :
    BackendState × Except SaveError Stats :=
  if editions.isEmpty then
    (s, .ok { editions := 0, articles := 0, relationships := 0,
              municipality := none, timestamp := none, batch_id := none })
  else
    let timestamp := fmtTimestamp now
    let g := saveGlobalCtx now batchIdArg municipalityArg
    let pm := processEditions s editions g
    match pm.2 with
    | .error e => (pm.1, .error e)
    | .ok (edRows, artRows, relRows) =>
      writeTables pm.1 timestamp g.batch_id g.municipality edRows artRows
        relRows

/-! ## `query_articles` -/

/-- Spec taxonomy name for a query without an active engine (in the source
a `RuntimeError("DuckDB não habilitado")`). -/
inductive QueryError
  | queryEngineDisabled
deriving DecidableEq, Repr

/-- The observable result of `query_articles`: the empty table returned
when no article files are discovered, or the SQL text handed to the
engine. -/
inductive QueryResult
  | empty
  | executed (sql : String)
deriving DecidableEq, Repr

/-- Python truthiness of an optional string filter (`if municipality:`):
present and non-empty. -/
def truthy : Option String → Bool
  | none => false
  | some s => !(s == "")

/-- Python truthiness of the optional `content_types` list. -/
def truthyList : Option (List String) → Bool
  | none => false
  | some l => !l.isEmpty

/-- The `where_clauses` list built by `query_articles`, in source order. -/
def whereClauses (municipality start_date end_date : Option String)
    (content_types : Option (List String)) : List String :=
  (if truthy municipality then
    ["municipality = '" ++ municipality.getD "" ++ "'"] else []) ++
  (if truthy start_date then
    ["publication_date >= '" ++ start_date.getD "" ++ "'"] else []) ++
  (if truthy end_date then
    ["publication_date <= '" ++ end_date.getD "" ++ "'"] else []) ++
  (if truthyList content_types then
    ["content_type IN ('" ++
      strJoinSep "', '" (content_types.getD []) ++ "')"] else [])

/-- `where_sql`: the conjunction, or `1=1` when no clause was built. -/
def whereSql (municipality start_date end_date : Option String)
    (content_types : Option (List String)) : String :=
  let cl := whereClauses municipality start_date end_date content_types
  if cl.isEmpty then "1=1" else strJoinSep " AND " cl

/-- `limit_sql` (`if limit:` — `None` and `0` both yield no LIMIT). -/
def limitSql : Option Nat → String
  | some n => if n == 0 then "" else "LIMIT " ++ toString n
  | none => ""

/-- The triple-quoted f-string query text, whitespace included. -/
def queryText (paths : List String) (whereS limitS : String) : String :=
  "\n            SELECT * FROM read_parquet(['" ++
    strJoinSep "', '" paths ++ "'])\n            WHERE " ++
    whereS ++ "\n            " ++ limitS ++ "\n        "

/-- `ParquetStorage.query_articles`: fails when the engine is disabled,
returns the empty table when no article files are discovered, and
otherwise builds and executes one SQL statement over the discovered
files. -/
def query_articles (cfg : StoreConfig) (s : BackendState)
    (municipality start_date end_date : Option String)
    (content_types : Option (List String)) (limit : Option Nat) :
    BackendState × Except QueryError QueryResult :=
  if !cfg.enableDuckdb then (s, .error .queryEngineDisabled)
  else
    let (s1, files) := s.listFiles "articles" (some ".parquet")
    if files.isEmpty then (s1, .ok .empty)
    else
      let wsql := whereSql municipality start_date end_date content_types
      let lsql := limitSql limit
      let paths := files.map (getUri cfg.basePath)
      (s1, .ok (.executed (queryText paths wsql lsql)))

/-! ## Definitions written from the spec's words (for refinement claims) -/

/-- The filters the spec's §4.4 calls "supplied", with the clause each one
contributes: equality on municipality, inclusive range on
publication_date (`>=` start, `<=` end), set membership on content_type.
Written from the spec text, to be compared with `whereClauses`. -/
def suppliedFilters (municipality start_date end_date : Option String)
    (content_types : Option (List String)) : List String :=
  (match municipality with
   | some v => if v = "" then [] else ["municipality = '" ++ v ++ "'"]
   | none => []) ++
  (match start_date with
   | some v => if v = "" then [] else ["publication_date >= '" ++ v ++ "'"]
   | none => []) ++
  (match end_date with
   | some v => if v = "" then [] else ["publication_date <= '" ++ v ++ "'"]
   | none => []) ++
  (match content_types with
   | some l =>
     if l = [] then []
     else ["content_type IN ('" ++ strJoinSep "', '" l ++ "')"]
   | none => [])

/-- The WHERE predicate as the spec describes it: the conjunction of the
supplied filters, and an always-true predicate when none is supplied. -/
def specWherePredicate (municipality start_date end_date : Option String)
    (content_types : Option (List String)) : String :=
  match suppliedFilters municipality start_date end_date content_types with
  | [] => "1=1"
  | fs => strJoinSep " AND " fs

/-- The decoded text of an article body, as the spec speaks of it: the
UTF-8 decode of a bytes body, a str body itself, `""` for an absent
body. -/
def decodedText : RawContent → Option String
  | .bytes b =>
    (match utf8Decode b with
     | some cs => some (String.mk cs)
     | none => none)
  | .text t => some t
  | .is_null => some ""

/-- Count of physical byte writes in an operation log. -/
def countWriteBytes (ops : List BackendOp) : Nat :=
  (ops.filter (fun o =>
    match o with
    | .writeBytes _ => true
    | _ => false)).length

/-- The article rows carried by a successful mapping result. -/
def articleRowsOf
    (r : Except SaveError
      (List EditionRow × List ArticleRow × List RelationshipRow)) :
    List ArticleRow :=
  match r with
  | .ok (_, ar, _) => ar
  | .error _ => []

/-- A successful mapping with all three row sets non-empty. -/
def mappedRowsNonempty
    (r : Except SaveError
      (List EditionRow × List ArticleRow × List RelationshipRow)) : Bool :=
  match r with
  | .ok (er, ar, rr) => !er.isEmpty && !ar.isEmpty && !rr.isEmpty
  | .error _ => false

/-! ## Concrete sample inputs used by witnesses -/

/-- A fixed observation instant. -/
def sampleNow : DateTime := ⟨2025, 10, 12, 0, 0, 0⟩

/-- An article with a short str body. -/
def sampleArticle : Article :=
  { metadata :=
      { article_id := "a1", edition_id := "e1", title := some "T",
        hierarchy_path := some ["part"], identifier := none, protocol := none }
    content := { raw_content := .text "hi", content_type := "text" } }

/-- An article with an absent body. -/
def nullBodyArticle : Article :=
  { metadata :=
      { article_id := "a2", edition_id := "e1", title := none,
        hierarchy_path := none, identifier := none, protocol := none }
    content := { raw_content := .is_null, content_type := "text" } }

/-- An edition with one short-bodied article and a well-formed date. -/
def sampleEdition : GazetteEdition :=
  { metadata :=
      { edition_id := "e1", publication_date := "2024-03-05",
        edition_number := 7, supplement := false, edition_type_id := 1,
        edition_type_name := "normal", pdf_url := "http://x/e1.pdf" }
    articles := [sampleArticle] }

/-- The same edition with a malformed `publication_date`. -/
def badDateEdition : GazetteEdition :=
  { metadata :=
      { edition_id := "e1", publication_date := "2024/03/05",
        edition_number := 7, supplement := false, edition_type_id := 1,
        edition_type_name := "normal", pdf_url := "http://x/e1.pdf" }
    articles := [] }

/-- A backend with no files and no injected faults. -/
def emptyState : BackendState := ⟨[], [], []⟩

/-- A backend that fails the articles-table write of the
`sampleNow` batch. -/
def failArticlesState : BackendState :=
  ⟨[], [], ["articles/batch_20251012_000000.parquet"]⟩

/-- A per-edition context for article-level witnesses. -/
def sampleCtx : EditionCtx :=
  { municipality := "", batch_id := "b1", edition_id := "e1",
    edition_hash := "h1", publication_date_raw := "2024-03-05",
    pub_date_obj := ⟨2024, 3, 5⟩, pub_parts := ⟨2024, 3, 5⟩, now := sampleNow }

/-- An arbitrary article row (list-head default for witnesses). -/
def dummyRow : ArticleRow :=
  { municipality := "", article_id := "", edition_id := "", edition_hash := ""
    publication_date := ⟨1, 1, 1⟩, title := "", hierarchy_path := "[]"
    identifier := "", protocol := "", depth := 0, content_type := ""
    content_size := 0, content_hash := none, content_path := none
    inline_text := some "", processed_at := ⟨1, 1, 1, 0, 0, 0⟩, batch_id := ""
    year := 1, month := 1, day := 1 }

/-! ## Implementation test vectors -/

/-- SHA-256 matches the standard test vector for `"abc"`. -/
theorem sha256hex_abc :
    sha256hex (utf8Encode "abc") =
      "ba7816bf8f01cfea414140de5dae2223b00361a396177a9cb410ff61f20015ad" := by
  rfl

/-- MD5 matches the standard test vector for `"abc"`. -/
theorem md5hex_abc :
    md5hex (utf8Encode "abc") = "900150983cd24fb0d6963f7d28e17f72" := by
  rfl

/-! ## Claim theorems -/

/-- Zero-padding produces exactly two digits below 100. -/
theorem pad2_length_two : ∀ n, n < 100 → (pad2 n).length = 2 := by decide

/-- C9: `date_partition` renders `year=YYYY`, `year=YYYY/month=MM` and
`year=YYYY/month=MM/day=DD` for the three granularities, month and day
zero-padded to two digits, with `"day"` the default granularity, and in
particular maps 2024-03-05 at day granularity to
`"year=2024/month=03/day=05"`. -/
theorem date_partition_formats (d : Date) :
    date_partition d "year" = "year=" ++ toString d.year ∧
    date_partition d "month" =
      "year=" ++ toString d.year ++ "/month=" ++ pad2 d.month ∧
    date_partition d "day" =
      "year=" ++ toString d.year ++ "/month=" ++ pad2 d.month ++
        "/day=" ++ pad2 d.day ∧
    date_partition d = date_partition d "day" ∧
    (d.month < 100 → (pad2 d.month).length = 2) ∧
    (d.day < 100 → (pad2 d.day).length = 2) ∧
    date_partition ⟨2024, 3, 5⟩ "day" = "year=2024/month=03/day=05" := by
  refine ⟨rfl, rfl, rfl, rfl, fun h => pad2_length_two d.month h,
    fun h => pad2_length_two d.day h, rfl⟩

/-- Witness for C9 at the spec's example date. -/
theorem date_partition_formats_witness :
    date_partition ⟨2024, 3, 5⟩ "year" = "year=" ++ toString 2024 ∧
    date_partition ⟨2024, 3, 5⟩ "month" =
      "year=" ++ toString 2024 ++ "/month=" ++ pad2 3 ∧
    date_partition ⟨2024, 3, 5⟩ "day" =
      "year=" ++ toString 2024 ++ "/month=" ++ pad2 3 ++ "/day=" ++ pad2 5 ∧
    date_partition ⟨2024, 3, 5⟩ = date_partition ⟨2024, 3, 5⟩ "day" ∧
    ((3 : Nat) < 100 → (pad2 3).length = 2) ∧
    ((5 : Nat) < 100 → (pad2 5).length = 2) ∧
    date_partition ⟨2024, 3, 5⟩ "day" = "year=2024/month=03/day=05" :=
  date_partition_formats ⟨2024, 3, 5⟩

/-- C8: `save_editions` on an empty list returns all-zero counts and
leaves the backend state — files and operation log — untouched. -/
theorem save_editions_empty_input (s : BackendState) (now : DateTime)
    (batchIdArg municipalityArg : Option String) :
    save_editions s [] now batchIdArg municipalityArg =
      (s, .ok { editions := 0, articles := 0, relationships := 0,
                municipality := none, timestamp := none, batch_id := none }) :=
  rfl

/-- C1: the code does not deliver the spec's non-fatal date fallback.
`_publication_date_parts` itself does substitute the current date on a
parse failure, but `save_editions` re-parses `publication_date` strictly
outside any try/except (parquet.py line 151), so a malformed date makes
the whole save raise instead of succeeding: here a batch whose edition
has `publication_date = "2024/03/05"` errors and writes nothing. -/
theorem save_editions_raises_on_malformed_date :
    publication_date_parts "2024/03/05" ⟨2025, 10, 12⟩ = ⟨2025, 10, 12⟩ ∧
    save_editions emptyState [badDateEdition] sampleNow none none =
      (emptyState, .error (.dateParse "2024/03/05")) :=
  ⟨rfl, rfl⟩

/-- C7: with the engine disabled `query_articles` fails immediately with
the `QueryEngineDisabled` error, and with the engine enabled but no
discoverable article files it returns the empty result without error. -/
theorem query_articles_disabled_and_no_files (cfg : StoreConfig)
    (s : BackendState) (m sd ed : Option String)
    (cts : Option (List String)) (lim : Option Nat) :
    (cfg.enableDuckdb = false →
      (query_articles cfg s m sd ed cts lim).2 =
        .error .queryEngineDisabled) ∧
    (cfg.enableDuckdb = true →
      listFilesPure s "articles" (some ".parquet") = [] →
      (query_articles cfg s m sd ed cts lim).2 = .ok .empty) := by
  constructor
  · intro h
    simp [query_articles, h]
  · intro h hf
    simp [query_articles, BackendState.listFiles, h, hf]

/-- Witness for C7: a disabled store errors, an enabled store over an
empty backend returns the empty result. -/
theorem query_articles_disabled_and_no_files_witness :
    (query_articles ⟨"base", "day", false⟩ emptyState none none none none
        none).2 = .error .queryEngineDisabled ∧
    (query_articles ⟨"base", "day", true⟩ emptyState none none none none
        none).2 = .ok .empty :=
  ⟨(query_articles_disabled_and_no_files ⟨"base", "day", false⟩ emptyState
      none none none none none).1 rfl,
   (query_articles_disabled_and_no_files ⟨"base", "day", true⟩ emptyState
      none none none none none).2 rfl rfl⟩

/-- C3: `put` is idempotent and content-addressed: writing the same byte
payload twice yields identical descriptors, the descriptor's path is the
deterministic sharded `content/<hash[0:2]>/<hash[2:4]>/<hash>.bin`
derived from the SHA-256 digest alone, and — starting from a backend not
yet holding the blob — the two calls perform exactly one physical byte
write (the second call only observes existence). -/
theorem blob_put_idempotent_single_write (b : List Nat) (s : BackendState)
    (n1 n2 : DateTime) (h : blobPathOf b ∉ s.files) :
    (write_content_blob s (.bytes b) n1).2 =
      (write_content_blob (write_content_blob s (.bytes b) n1).1
        (.bytes b) n2).2 ∧
    (write_content_blob s (.bytes b) n1).2.content_path =
      some (blobPathOf b) ∧
    blobPathOf b = CONTENT_DIRNAME ++ "/" ++ strTake (sha256hex b) 2 ++
      "/" ++ strTake (strDrop (sha256hex b) 2) 2 ++ "/" ++
      (sha256hex b ++ ".bin") ∧
    countWriteBytes
      ((write_content_blob (write_content_blob s (.bytes b) n1).1
        (.bytes b) n2).1.ops) = countWriteBytes s.ops + 1 := by
  have h1 : (decide (blobPathOf b ∈ s.files)) = false := by simp [h]
  refine ⟨?_, ?_, rfl, ?_⟩
  · simp [write_content_blob, BackendState.existsOp]
  · simp [write_content_blob, BackendState.existsOp]
  · simp [write_content_blob, BackendState.existsOp, h1,
      BackendState.writeBytesOp, countWriteBytes, List.filter_append]

/-- Witness for C3 at the empty payload over an empty backend. -/
theorem blob_put_idempotent_single_write_witness :
    (write_content_blob emptyState (.bytes []) sampleNow).2 =
      (write_content_blob (write_content_blob emptyState (.bytes []) sampleNow).1
        (.bytes []) sampleNow).2 ∧
    (write_content_blob emptyState (.bytes []) sampleNow).2.content_path =
      some (blobPathOf []) ∧
    blobPathOf [] = CONTENT_DIRNAME ++ "/" ++ strTake (sha256hex []) 2 ++
      "/" ++ strTake (strDrop (sha256hex []) 2) 2 ++ "/" ++
      (sha256hex [] ++ ".bin") ∧
    countWriteBytes
      ((write_content_blob (write_content_blob emptyState (.bytes []) sampleNow).1
        (.bytes []) sampleNow).1.ops) = countWriteBytes emptyState.ops + 1 :=
  blob_put_idempotent_single_write [] emptyState sampleNow sampleNow
    (by simp [emptyState])

/-- C2: the inline-vs-blob policy.  If the body decodes (a str body is its
own decoding, an absent body decodes to `""`) and the decoded text has at
most 2000 characters, the row inlines the text with both blob fields
null; if the body is not valid UTF-8 or the decoded text exceeds 2000
characters, the row carries a blob descriptor with `inline_text` null.
The boundary is inclusive: 2000 characters inline, 2001 blob. -/
theorem inline_blob_policy (s : BackendState) (a : Article)
    (ctx : EditionCtx) :
    (∀ t : String, decodedText a.content.raw_content = some t →
      t.length ≤ CONTENT_INLINE_THRESHOLD →
      (processArticle s a ctx).2.inline_text = some t ∧
      (processArticle s a ctx).2.content_hash = none ∧
      (processArticle s a ctx).2.content_path = none) ∧
    ((decodedText a.content.raw_content = none ∨
      (∀ t : String, decodedText a.content.raw_content = some t →
        CONTENT_INLINE_THRESHOLD < t.length)) →
      (processArticle s a ctx).2.inline_text = none ∧
      ((processArticle s a ctx).2.content_hash).isSome = true ∧
      ((processArticle s a ctx).2.content_path).isSome = true) := by
  obtain ⟨md, rc, cty⟩ := a
  rcases rc with t | bb | _
  · constructor
    · intro t' ht hlen
      simp only [decodedText, Option.some.injEq] at ht
      subst ht
      have hb : ¬(CONTENT_INLINE_THRESHOLD < t.length) := Nat.not_lt.mpr hlen
      simp [processArticle, hb]
    · rintro (h | h)
      · simp [decodedText] at h
      · have hlen := h t (by simp [decodedText])
        simp [processArticle, hlen, write_content_blob]
  · rcases hdec : utf8Decode bb with _ | cs
    · constructor
      · intro t' ht
        simp [decodedText, hdec] at ht
      · intro _
        simp [processArticle, hdec, write_content_blob]
    · constructor
      · intro t' ht hlen
        simp only [decodedText, hdec, Option.some.injEq] at ht
        subst ht
        have hb : ¬(CONTENT_INLINE_THRESHOLD < cs.length) := Nat.not_lt.mpr hlen
        simp [processArticle, hdec, hb]
      · rintro (h | h)
        · simp [decodedText, hdec] at h
        · have hlen : CONTENT_INLINE_THRESHOLD < cs.length :=
            h (String.mk cs) (by simp [decodedText, hdec])
          simp [processArticle, hdec, hlen, write_content_blob]
  · constructor
    · intro t' ht _
      simp only [decodedText, Option.some.injEq] at ht
      subst ht
      exact ⟨rfl, rfl, rfl⟩
    · rintro (h | h)
      · simp [decodedText] at h
      · have h0 := h "" (by simp [decodedText])
        simp [CONTENT_INLINE_THRESHOLD] at h0

/-- Witness for C2: a two-character str body is stored inline. -/
theorem inline_blob_policy_witness :
    (processArticle emptyState sampleArticle sampleCtx).2.inline_text =
      some "hi" ∧
    (processArticle emptyState sampleArticle sampleCtx).2.content_hash =
      none ∧
    (processArticle emptyState sampleArticle sampleCtx).2.content_path =
      none :=
  (inline_blob_policy emptyState sampleArticle sampleCtx).1 "hi" rfl
    (by decide)

/-- C10: an absent (`None`) body is normalized to `""` and stored inline —
the row has `inline_text = ""`, `content_size = 0`, null blob fields, the
backend is untouched (no blob write), and the mapping cannot fail. -/
theorem null_body_stored_inline (s : BackendState) (a : Article)
    (ctx : EditionCtx) (h : a.content.raw_content = .is_null) :
    (processArticle s a ctx).1 = s ∧
    (processArticle s a ctx).2.inline_text = some "" ∧
    (processArticle s a ctx).2.content_size = 0 ∧
    (processArticle s a ctx).2.content_hash = none ∧
    (processArticle s a ctx).2.content_path = none := by
  obtain ⟨md, rc, cty⟩ := a
  cases h
  exact ⟨rfl, rfl, rfl, rfl, rfl⟩

/-- Witness for C10: the sample article with a `None` body. -/
theorem null_body_stored_inline_witness :
    (processArticle emptyState nullBodyArticle sampleCtx).1 = emptyState ∧
    (processArticle emptyState nullBodyArticle sampleCtx).2.inline_text =
      some "" ∧
    (processArticle emptyState nullBodyArticle sampleCtx).2.content_size = 0 ∧
    (processArticle emptyState nullBodyArticle sampleCtx).2.content_hash =
      none ∧
    (processArticle emptyState nullBodyArticle sampleCtx).2.content_path =
      none :=
  null_body_stored_inline emptyState nullBodyArticle sampleCtx rfl

/-! ## Helper lemmas for the row invariant (C4) -/

/-- Each single produced article row places its content on exactly one
side of the inline/blob split. -/
theorem processArticle_placement (s : BackendState) (a : Article)
    (ctx : EditionCtx) :
    ((processArticle s a ctx).2.inline_text ≠ none ∧
      ¬((processArticle s a ctx).2.content_hash ≠ none ∧
        (processArticle s a ctx).2.content_path ≠ none)) ∨
    ((processArticle s a ctx).2.inline_text = none ∧
      (processArticle s a ctx).2.content_hash ≠ none ∧
      (processArticle s a ctx).2.content_path ≠ none) := by
  obtain ⟨md, rc, cty⟩ := a
  rcases rc with t | bb | _
  · by_cases hb : CONTENT_INLINE_THRESHOLD < t.length
    · right
      simp [processArticle, hb, write_content_blob]
    · left
      simp [processArticle, hb]
  · rcases hdec : utf8Decode bb with _ | cs
    · right
      simp [processArticle, hdec, write_content_blob]
    · by_cases hb : CONTENT_INLINE_THRESHOLD < cs.length
      · right
        simp [processArticle, hdec, hb, write_content_blob]
      · left
        simp [processArticle, hdec, hb]
  · left
    simp [processArticle]

/-- The placement split holds for every row of the article loop. -/
theorem processArticles_placement :
    ∀ (arts : List Article) (s : BackendState) (ctx : EditionCtx)
      (row : ArticleRow), row ∈ (processArticles s arts ctx).2.1 →
      (row.inline_text ≠ none ∧
        ¬(row.content_hash ≠ none ∧ row.content_path ≠ none)) ∨
      (row.inline_text = none ∧ row.content_hash ≠ none ∧
        row.content_path ≠ none) := by
  intro arts
  induction arts with
  | nil =>
    intro s ctx row h
    simp [processArticles] at h
  | cons a rest ih =>
    intro s ctx row h
    simp only [processArticles, List.mem_cons] at h
    rcases h with h | h
    · subst h
      exact processArticle_placement s a ctx
    · exact ih _ _ _ h

/-- The placement split holds for every row of the edition loop. -/
theorem processEditions_placement :
    ∀ (eds : List GazetteEdition) (s : BackendState) (g : GlobalCtx)
      (row : ArticleRow),
      row ∈ articleRowsOf (processEditions s eds g).2 →
      (row.inline_text ≠ none ∧
        ¬(row.content_hash ≠ none ∧ row.content_path ≠ none)) ∨
      (row.inline_text = none ∧ row.content_hash ≠ none ∧
        row.content_path ≠ none) := by
  intro eds
  induction eds with
  | nil =>
    intro s g row h
    simp [processEditions, articleRowsOf] at h
  | cons e rest ih =>
    intro s g row h
    rcases hp : (processEdition s e g).2 with err | ⟨er, ar, rr⟩
    · simp only [processEditions] at h
      rw [hp] at h
      simp [articleRowsOf] at h
    · rcases hr : (processEditions (processEdition s e g).1 rest g).2 with
        err2 | ⟨ers, ars, rrs⟩
      · simp only [processEditions] at h
        rw [hp, hr] at h
        simp [articleRowsOf] at h
      · simp only [processEditions] at h
        rw [hp, hr] at h
        simp only [articleRowsOf, List.mem_append] at h
        rcases h with h | h
        · rcases hd : parseDateStrict e.metadata.publication_date with _ | d
          · simp only [processEdition, hd] at hp
            cases hp
          · simp only [processEdition, hd, Except.ok.injEq,
              Prod.mk.injEq] at hp
            obtain ⟨-, har, -⟩ := hp
            rw [← har] at h
            exact processArticles_placement _ _ _ _ h
        · exact ih _ _ _ (by rw [hr]; simpa [articleRowsOf] using h)

/-- C4: every article row produced by the mapping phase of
`save_editions` satisfies the placement invariant — exactly one of
`inline_text` non-null or (`content_hash` and `content_path` both
non-null) holds, never both, never neither. -/
theorem article_rows_inline_xor_blob (s : BackendState)
    (eds : List GazetteEdition) (g : GlobalCtx) (row : ArticleRow)
    (h : row ∈ articleRowsOf (processEditions s eds g).2) :
    (row.inline_text ≠ none ∧
      ¬(row.content_hash ≠ none ∧ row.content_path ≠ none)) ∨
    (row.inline_text = none ∧ row.content_hash ≠ none ∧
      row.content_path ≠ none) :=
  processEditions_placement eds s g row h

/-- Witness for C4: the first article row of a mapped sample batch. -/
theorem article_rows_inline_xor_blob_witness :
    (((articleRowsOf (processEditions emptyState [sampleEdition]
        (saveGlobalCtx sampleNow none none)).2).headD dummyRow).inline_text ≠
        none ∧
      ¬(((articleRowsOf (processEditions emptyState [sampleEdition]
          (saveGlobalCtx sampleNow none none)).2).headD
            dummyRow).content_hash ≠ none ∧
        ((articleRowsOf (processEditions emptyState [sampleEdition]
          (saveGlobalCtx sampleNow none none)).2).headD
            dummyRow).content_path ≠ none)) ∨
    (((articleRowsOf (processEditions emptyState [sampleEdition]
        (saveGlobalCtx sampleNow none none)).2).headD dummyRow).inline_text =
        none ∧
      ((articleRowsOf (processEditions emptyState [sampleEdition]
        (saveGlobalCtx sampleNow none none)).2).headD
          dummyRow).content_hash ≠ none ∧
      ((articleRowsOf (processEditions emptyState [sampleEdition]
        (saveGlobalCtx sampleNow none none)).2).headD
          dummyRow).content_path ≠ none) :=
  article_rows_inline_xor_blob emptyState [sampleEdition]
    (saveGlobalCtx sampleNow none none) _ (by decide)

/-! ## Helper lemmas for the write phase (C5) -/

/-- Blob writes never touch the fault-injection set. -/
theorem write_content_blob_fail (s : BackendState) (raw : StrOrBytes)
    (now : DateTime) :
    (write_content_blob s raw now).1.failParquet = s.failParquet := by
  simp only [write_content_blob]
  split <;> rfl

/-- The article step never touches the fault-injection set. -/
theorem processArticle_fail (s : BackendState) (a : Article)
    (ctx : EditionCtx) :
    (processArticle s a ctx).1.failParquet = s.failParquet := by
  obtain ⟨md, rc, cty⟩ := a
  rcases rc with t | bb | _ <;>
    simp only [processArticle] <;>
    (try split) <;>
    simp [write_content_blob_fail]

/-- The article loop never touches the fault-injection set. -/
theorem processArticles_fail :
    ∀ (arts : List Article) (s : BackendState) (ctx : EditionCtx),
      (processArticles s arts ctx).1.failParquet = s.failParquet := by
  intro arts
  induction arts with
  | nil => intro s ctx; rfl
  | cons a rest ih =>
    intro s ctx
    simp only [processArticles]
    rw [ih, processArticle_fail]

/-- The edition step never touches the fault-injection set. -/
theorem processEdition_fail (s : BackendState) (e : GazetteEdition)
    (g : GlobalCtx) :
    (processEdition s e g).1.failParquet = s.failParquet := by
  simp only [processEdition]
  split <;> simp [processArticles_fail]

/-- The mapping loop never touches the fault-injection set. -/
theorem processEditions_fail :
    ∀ (eds : List GazetteEdition) (s : BackendState) (g : GlobalCtx),
      (processEditions s eds g).1.failParquet = s.failParquet := by
  intro eds
  induction eds with
  | nil => intro s g; rfl
  | cons e rest ih =>
    intro s g
    simp only [processEditions]
    split
    · exact processEdition_fail s e g
    · split <;> rw [ih, processEdition_fail]

/-- A successful guarded table write appends the file and reports the
count. -/
theorem writeStep_success (st : BackendState) (p : String) (c : Nat)
    (h : p ∉ st.failParquet) :
    writeStep st true p c =
      ({ st with files := st.files ++ [p],
                 ops := st.ops ++ [.writeParquet p] }, .ok c) := by
  simp [writeStep, BackendState.writeParquetOp, h]

/-- A failing guarded table write leaves the files unchanged and raises. -/
theorem writeStep_failure (st : BackendState) (p : String) (c : Nat)
    (h : p ∈ st.failParquet) :
    writeStep st true p c =
      ({ st with ops := st.ops ++ [.writeParquet p] },
        .error (.writeFail p)) := by
  simp [writeStep, BackendState.writeParquetOp, h]

/-- C5: the three table writes are sequential and not transactional.  For
any batch whose mapping succeeds with non-empty row sets, if the editions
write succeeds and then the articles write fails — or the articles write
succeeds and the relationships write fails — `save_editions` propagates
the write failure to the caller while the earlier successful table files
remain in the backend (no rollback). -/
theorem save_editions_not_transactional (s : BackendState)
    (eds : List GazetteEdition) (now : DateTime) (bid mun : Option String)
    (hmap : mappedRowsNonempty
      (processEditions s eds (saveGlobalCtx now bid mun)).2 = true)
    (hgaz : gazettesPath (fmtTimestamp now) ∉ s.failParquet)
    (hfail : articlesPath (fmtTimestamp now) ∈ s.failParquet ∨
      (articlesPath (fmtTimestamp now) ∉ s.failParquet ∧
        relationshipsPath (fmtTimestamp now) ∈ s.failParquet)) :
    (∃ p, (save_editions s eds now bid mun).2 = .error (.writeFail p)) ∧
    gazettesPath (fmtTimestamp now) ∈
      (save_editions s eds now bid mun).1.files ∧
    (articlesPath (fmtTimestamp now) ∉ s.failParquet →
      articlesPath (fmtTimestamp now) ∈
        (save_editions s eds now bid mun).1.files) := by
  cases eds with
  | nil => simp [processEditions, mappedRowsNonempty] at hmap
  | cons e rest =>
    rcases hp : (processEditions s (e :: rest)
        (saveGlobalCtx now bid mun)).2 with err | ⟨er, ar, rr⟩
    · rw [hp] at hmap
      simp [mappedRowsNonempty] at hmap
    · rw [hp] at hmap
      simp only [mappedRowsNonempty, Bool.and_eq_true, Bool.not_eq_true',
        List.isEmpty_eq_false] at hmap
      obtain ⟨⟨her, har⟩, hrr⟩ := hmap
      have hpm : (processEditions s (e :: rest)
          (saveGlobalCtx now bid mun)).1.failParquet = s.failParquet :=
        processEditions_fail _ _ _
      simp only [save_editions, List.isEmpty_cons]
      rw [hp]
      simp only [writeTables]
      rw [List.isEmpty_eq_false.mpr her, List.isEmpty_eq_false.mpr har,
        List.isEmpty_eq_false.mpr hrr]
      simp only [Bool.not_false, Bool.false_eq_true, if_false]
      rw [writeStep_success _ _ _ (by rw [hpm]; exact hgaz)]
      rcases hfail with hart | ⟨hartn, hrel⟩
      · rw [writeStep_failure _ _ _ (by simpa [hpm] using hart)]
        refine ⟨⟨articlesPath (fmtTimestamp now), rfl⟩, by simp, ?_⟩
        intro h'
        exact absurd hart h'
      · rw [writeStep_success _ _ _ (by simpa [hpm] using hartn)]
        rw [writeStep_failure _ _ _ (by simpa [hpm] using hrel)]
        exact ⟨⟨relationshipsPath (fmtTimestamp now), rfl⟩, by simp, by simp⟩

/-- Witness for C5: a one-edition batch against a backend that fails the
articles-table write; the editions table file survives and the error
propagates. -/
theorem save_editions_not_transactional_witness :
    (∃ p, (save_editions failArticlesState [sampleEdition] sampleNow none
      none).2 = .error (.writeFail p)) ∧
    gazettesPath (fmtTimestamp sampleNow) ∈
      (save_editions failArticlesState [sampleEdition] sampleNow none
        none).1.files ∧
    (articlesPath (fmtTimestamp sampleNow) ∉ failArticlesState.failParquet →
      articlesPath (fmtTimestamp sampleNow) ∈
        (save_editions failArticlesState [sampleEdition] sampleNow none
          none).1.files) :=
  save_editions_not_transactional failArticlesState [sampleEdition]
    sampleNow none none (by decide) (by decide) (Or.inl (by decide))

/-! ## Helper lemmas for the query predicate (C6) -/

/-- Truthiness of a present string filter is the non-emptiness test. -/
theorem if_truthy_some (v : String) (cl : List String) :
    (if truthy (some v) then cl else []) =
      (if v = "" then [] else cl) := by
  by_cases hv : v = "" <;> simp [truthy, hv]

/-- Truthiness of a present list filter is the non-emptiness test. -/
theorem if_truthyList_some (l : List String) (cl : List String) :
    (if truthyList (some l) then cl else []) =
      (if l = [] then [] else cl) := by
  cases l <;> simp [truthyList]

/-- The clause list the code builds is exactly the spec's supplied-filter
list. -/
theorem whereClauses_eq_suppliedFilters (m sd ed : Option String)
    (cts : Option (List String)) :
    whereClauses m sd ed cts = suppliedFilters m sd ed cts := by
  rcases m with _ | mv <;> rcases sd with _ | sv <;> rcases ed with _ | ev <;>
    rcases cts with _ | ls <;>
    simp only [whereClauses, suppliedFilters, if_truthy_some,
      if_truthyList_some, Option.getD_some] <;>
    simp [truthy, truthyList]

/-- The code's WHERE text equals the spec's predicate. -/
theorem whereSql_eq_specWherePredicate (m sd ed : Option String)
    (cts : Option (List String)) :
    whereSql m sd ed cts = specWherePredicate m sd ed cts := by
  simp only [whereSql, specWherePredicate, whereClauses_eq_suppliedFilters]
  cases h : suppliedFilters m sd ed cts with
  | nil => simp
  | cons x xs => simp

/-- C6: for every combination of supplied filters, `query_articles` builds
one SQL statement whose WHERE predicate is exactly the conjunction of the
supplied filters (equality on municipality, inclusive date range, set
membership on content_type), and with no filters supplied the predicate
is the always-true `1=1`. -/
theorem query_builds_conjunctive_predicate (cfg : StoreConfig)
    (s : BackendState) (m sd ed : Option String)
    (cts : Option (List String)) (lim : Option Nat)
    (hen : cfg.enableDuckdb = true) (f : String) (fs : List String)
    (hf : listFilesPure s "articles" (some ".parquet") = f :: fs) :
    (query_articles cfg s m sd ed cts lim).2 =
      .ok (.executed (queryText ((f :: fs).map (getUri cfg.basePath))
        (specWherePredicate m sd ed cts) (limitSql lim))) ∧
    (m = none → sd = none → ed = none → cts = none →
      specWherePredicate m sd ed cts = "1=1") := by
  constructor
  · simp [query_articles, hen, BackendState.listFiles, hf,
      whereSql_eq_specWherePredicate]
  · rintro rfl rfl rfl rfl
    rfl

/-- Witness for C6 over one discovered file with three supplied filters. -/
theorem query_builds_conjunctive_predicate_witness :
    (query_articles ⟨"base", "day", true⟩
        ⟨["articles/batch_x.parquet"], [], []⟩ (some "sp")
        (some "2024-01-01") none (some ["text"]) (some 10)).2 =
      .ok (.executed (queryText
        (["articles/batch_x.parquet"].map (getUri "base"))
        (specWherePredicate (some "sp") (some "2024-01-01") none
          (some ["text"])) (limitSql (some 10)))) ∧
    ((some "sp" : Option String) = none →
      (some "2024-01-01" : Option String) = none →
      (none : Option String) = none →
      (some ["text"] : Option (List String)) = none →
      specWherePredicate (some "sp") (some "2024-01-01") none
        (some ["text"]) = "1=1") :=
  query_builds_conjunctive_predicate ⟨"base", "day", true⟩
    ⟨["articles/batch_x.parquet"], [], []⟩ (some "sp") (some "2024-01-01")
    none (some ["text"]) (some 10) rfl "articles/batch_x.parquet" [] rfl

end DiarioUtils
